import Mathlib

/-
Verification development for the matrix-discord-bridge repository.

The bridge relays messages between a Matrix homeserver and a Discord
server.  Its core state is two persisted key-value stores:

  * `WebhookManager` (webhooks.go) — the identity cache mapping
    "channel | username" keys to Discord webhook credentials;
  * `MessageManager` (messages.go) — the correlation store mapping a
    Discord message id and a Matrix event id to the same record.

The three event handlers in main.go (Matrix m.room.message,
Discord MessageCreate, Discord MessageUpdate) are embedded as pure
functions from the handler inputs plus the results of the external
network calls (webhook creation, webhook execution, Matrix sends — all
performed by remote services) to the new state and the list of outbound
platform calls the handler issues.

A Go map is a finite key-value table with last-write-wins assignment;
the correlation store's two maps are embedded as functions
`String → Option MessageInfo` updated pointwise (nothing in the source
iterates over them), while the webhook cache is embedded as an
association list because `WebhookManager.Has` linearly scans its
values.  Go string formatting that delegates to external libraries
(markdown rendering, HTML escaping, float formatting inside fileSize)
is passed in as a function parameter, since the handlers only pipe
those strings through.
-/

/-- Association-list lookup with the Go zero-value default `""`,
matching `config.Bridge[key]` / `matrixToDiscord[key]` reads. -/
def lookupOr (l : List (String × String)) (k : String) : String :=
  (l.lookup k).getD ""

/-- Go's `fmt.Sprint` applied to a possibly-absent map value: a missing
key holds interface value `nil`, printed as `"<nil>"`. -/
def sprint (o : Option String) : String := o.getD "<nil>"

/-- stripMatrixName (main.go): cut at the first `":"`, then trim one
leading `"@"`. -/
def stripMatrixName (username : String) : String :=
  let u := (username.splitOn ":").headD username
  if u.startsWith "@" then u.drop 1 else u

/-- A stored Discord webhook credential (webhooks.go WebhookInfo). -/
structure WebhookInfo where
  ID : String
  Token : String
deriving DecidableEq, Repr

/-- The identity cache contents: the `webhooks` map of WebhookManager,
keyed by `channel ++ " | " ++ username`.  Assignments in the source
only ever happen at a key that was just checked to be absent, where a
Go map assignment adds a fresh binding. -/
abbrev Webhooks := List (String × WebhookInfo)

/-- The map key used by WebhookManager.Get. -/
def webhookKey (channel username : String) : String :=
  channel ++ " | " ++ username

/-- Parameters of a WebhookExecute call: either a plain text message or
a file upload (main.go passes Content+Username, or Files+Username). -/
inductive WebhookParams where
  | text (content username : String)
  | files (name contentType username : String)
deriving DecidableEq, Repr

/-- An outbound Discord-side call issued while handling a Matrix event,
including the persistence write of the webhook cache. -/
inductive DiscordCall where
  | webhookCreate (channel username : String)
  | saveWebhooks (cache : Webhooks)
  | webhookExecute (id token : String) (wait : Bool) (params : WebhookParams)
  | webhookMessageEdit (id token messageID content : String)
deriving DecidableEq, Repr

/-- Result of WebhookManager.Get: the new cache, the calls it issued,
the returned (id, token) pair, and the returned error if any.  On error
Go returns the zero values `("", "")`. -/
structure GetResult where
  cache : Webhooks
  calls : List DiscordCall
  id : String
  token : String
  err : Option String
deriving DecidableEq, Repr

/-- WebhookManager.Get (webhooks.go): return the cached credential for
the (channel, username) pair if present; otherwise issue one
WebhookCreate call (whose outcome `createResult` is supplied by the
remote platform), and on success store the result and persist the full
cache.  A failed persistence write is only logged and does not roll the
entry back, so persistence is modelled as the `saveWebhooks` call. -/
def webhooksGet (wm : Webhooks) (channel username : String)
    (createResult : Except String WebhookInfo) : GetResult :=
  match wm.lookup (webhookKey channel username) with
  | some w => ⟨wm, [], w.ID, w.Token, none⟩
  | none =>
    match createResult with
    | .error e => ⟨wm, [.webhookCreate channel username], "", "", some e⟩
    | .ok w =>
      let wm2 := wm ++ [(webhookKey channel username, w)]
      ⟨wm2, [.webhookCreate channel username, .saveWebhooks wm2],
        w.ID, w.Token, none⟩

/-- WebhookManager.Has (webhooks.go): linear scan over the cached
credentials for one whose webhook ID equals `id`. -/
def webhooksHas (wm : Webhooks) (id : String) : Bool :=
  wm.any (fun p => p.2.ID = id)

/-- One correlation record (messages.go MessageInfo).  Fields the Add
call sites in main.go leave unset keep the Go zero value `""`. -/
structure MessageInfo where
  DiscordID : String := ""
  WebhookID : String := ""
  WebhookToken : String := ""
  ChannelID : String := ""
  GuildID : String := ""
  RoomID : String := ""
  MatrixID : String := ""
  Content : String := ""
  Author : String := ""
  AvatarURL : String := ""
deriving DecidableEq, Repr

/-- Go map assignment `m[k] = v`: pointwise update, overwriting
silently (last-write-wins). -/
def massign (m : String → Option MessageInfo) (k : String)
    (v : MessageInfo) : String → Option MessageInfo :=
  fun q => if q = k then some v else m q

/-- The correlation store (messages.go MessageManager): the two indexes
over the same records.  The persistence write in `save` serializes
`discordToMessage` only and does not change the maps, so it is not part
of the state transition. -/
structure MessageManager where
  discordToMessage : String → Option MessageInfo
  matrixToMessage : String → Option MessageInfo

/-- The store NewMessageManager returns when the backing file is
missing: both indexes empty. -/
def MessageManager.empty : MessageManager :=
  ⟨fun _ => none, fun _ => none⟩

/-- MessageManager.Add (messages.go): index the record under its
Discord id and under its Matrix id, overwriting silently. -/
def MessageManager.Add (m : MessageManager) (msg : MessageInfo) :
    MessageManager :=
  ⟨massign m.discordToMessage msg.DiscordID msg,
   massign m.matrixToMessage msg.MatrixID msg⟩

/-- MessageManager.GetDiscord (messages.go). -/
def MessageManager.GetDiscord (m : MessageManager) (discordID : String) :
    Option MessageInfo :=
  m.discordToMessage discordID

/-- MessageManager.GetMatrix (messages.go). -/
def MessageManager.GetMatrix (m : MessageManager) (matrixID : String) :
    Option MessageInfo :=
  m.matrixToMessage matrixID

/-- NewMessageManager (messages.go) on an existing file: rebuild both
indexes from the decoded record list, each record keyed by its own two
identifiers — the same per-record step as Add, without the save. -/
def MessageManager.load (msgs : List MessageInfo) : MessageManager :=
  msgs.foldl MessageManager.Add MessageManager.empty

/-- The `m.relates_to` sub-map of a Matrix event's content, with the
two keys the handler reads; an absent key is interface `nil`. -/
structure RelatesTo where
  relType : Option String
  eventID : Option String
deriving DecidableEq, Repr

/-- The `m.new_content` sub-map of a replacement event, with the keys
`matrixMsgToDiscord` reads. -/
structure NewContent where
  msgtype : Option String
  body : Option String
deriving DecidableEq, Repr

/-- The content map of a Matrix `m.room.message` event, restricted to
the keys read by the handler in main.go; each is absent (`nil`) or a
string.  `mimetype` stands for `content.info.mimetype`. -/
structure EventContent where
  msgtype : Option String := none
  body : Option String := none
  url : Option String := none
  filename : Option String := none
  mimetype : Option String := none
  relatesTo : Option RelatesTo := none
  newContent : Option NewContent := none
deriving DecidableEq, Repr

/-- A Matrix event as delivered to the OnEventType handler. -/
structure MatrixEvent where
  ID : String
  Sender : String
  RoomID : String
  Timestamp : Int
  Content : EventContent
deriving DecidableEq, Repr

/-- matrixMsgToDiscord (main.go), over the (msgtype, body) pair of
whichever content map is passed (the event content or m.new_content). -/
def matrixMsgToDiscord (sender : String) (msgtype body : Option String) :
    String :=
  if msgtype = some "m.emote" then
    "* **" ++ stripMatrixName sender ++ "** " ++ sprint body
  else
    sprint body

/-- discordMsgToMatrixHTML (main.go): render markdown (the external
gomarkdown call, passed as `render`), trim whitespace, strip one
enclosing paragraph tag pair, and prepend the bold sender. -/
def discordMsgToMatrixHTML (render : String → String)
    (sender content : String) : String :=
  let c := (render content).trim
  let c :=
    if c.startsWith "<p>" && c.endsWith "</p>" then (c.drop 3).dropRight 4
    else c
  "<b>" ++ sender ++ "</b>: " ++ c

/-- The static bridge configuration: the bot's Matrix username, the
Discord-channel-to-Matrix-room table from the config file, and the
reverse table main.go derives from it once at startup. -/
structure Config where
  matrixUsername : String
  bridge : List (String × String)
  matrixToDiscord : List (String × String)
deriving DecidableEq, Repr

/-- Results of the external Discord calls the Matrix-event handler can
make: the outcome of WebhookCreate if one is issued, the message
returned by WebhookExecute (`none` when it errors and returns no
message), whether getContent succeeded, and the extension chosen by the
mime lookup. -/
structure MatrixExt where
  createResult : Except String WebhookInfo
  executeResult : Option String
  contentOk : Bool
  mimeExt : String

/-- The filename used for a relayed m.file upload: the `filename`
content field when it is a string, otherwise `fmt.Sprint` of `body`. -/
def fileNameOf (ev : MatrixEvent) : String :=
  match ev.Content.filename with
  | some f => f
  | none => sprint ev.Content.body

/-- The new-relay branch of the m.room.message handler (main.go): fetch
or create the webhook (the returned error is only logged, and the
returned id/token — zero values on error — are used regardless), then
switch on msgtype; only the text branch captures the WebhookExecute
result, so only a successful text-branch send reaches
MessageManager.Add. -/
def matrixNewRelay (ext : MatrixExt) (wm : Webhooks) (mm : MessageManager)
    (ev : MatrixEvent) (discordChannelID : String) :
    Webhooks × MessageManager × List DiscordCall :=
  let g := webhooksGet wm discordChannelID ev.Sender ext.createResult
  if sprint ev.Content.msgtype ∈ (["m.text", "m.notice", "m.emote"] : List String) then
    let call := DiscordCall.webhookExecute g.id g.token true
      (.text (matrixMsgToDiscord ev.Sender ev.Content.msgtype ev.Content.body)
        (stripMatrixName ev.Sender))
    match ext.executeResult with
    | some discordMsgID =>
      (g.cache,
       mm.Add { WebhookID := g.id, WebhookToken := g.token,
                DiscordID := discordMsgID, MatrixID := ev.ID,
                RoomID := ev.RoomID },
       g.calls ++ [call])
    | none => (g.cache, mm, g.calls ++ [call])
  else if sprint ev.Content.msgtype ∈ (["m.image", "m.audio", "m.video"] : List String) then
    (g.cache, mm, g.calls ++ [.webhookExecute g.id g.token true
      (.files ((sprint ev.Content.msgtype).drop 2 ++ ext.mimeExt)
        (sprint ev.Content.mimetype) (stripMatrixName ev.Sender))])
  else if sprint ev.Content.msgtype = "m.file" then
    if ext.contentOk then
      (g.cache, mm, g.calls ++ [.webhookExecute g.id g.token true
        (.files (fileNameOf ev) (sprint ev.Content.mimetype)
          (stripMatrixName ev.Sender))])
    else (g.cache, mm, g.calls)
  else (g.cache, mm, g.calls)

/-- The OnEventType "m.room.message" handler (main.go): drop events
from before process start, events sent by the bridge's own Matrix
account, and events in rooms with no mapped Discord channel; then
either apply a replacement to the correlated Discord message or relay a
new message. -/
def handleMatrixEvent (cfg : Config) (startTime : Int) (ext : MatrixExt)
    (wm : Webhooks) (mm : MessageManager) (ev : MatrixEvent) :
    Webhooks × MessageManager × List DiscordCall :=
  if ev.Timestamp < startTime then (wm, mm, [])
  else if ev.Sender = cfg.matrixUsername then (wm, mm, [])
  else
    let discordChannelID := lookupOr cfg.matrixToDiscord ev.RoomID
    if discordChannelID = "" then (wm, mm, [])
    else
      match ev.Content.relatesTo with
      | some rel =>
        if rel.relType = some "m.replace" then
          match mm.GetMatrix (sprint rel.eventID) with
          | none => (wm, mm, [])
          | some info =>
            match ev.Content.newContent with
            | none => (wm, mm, [])
            | some nc =>
              (wm, mm, [.webhookMessageEdit info.WebhookID info.WebhookToken
                info.DiscordID (matrixMsgToDiscord ev.Sender nc.msgtype nc.body)])
        else matrixNewRelay ext wm mm ev discordChannelID
      | none => matrixNewRelay ext wm mm ev discordChannelID

/-- Whether a Matrix event declares itself a replacement — the
condition `ok && relatesTo["rel_type"] == "m.replace"` in main.go. -/
def isReplace (ev : MatrixEvent) : Bool :=
  match ev.Content.relatesTo with
  | some rel => rel.relType = some "m.replace"
  | none => false

/-- A Discord attachment, with the fields main.go reads. -/
structure DiscordAttachment where
  URL : String
  Filename : String
  ContentType : String
  Size : Int
deriving DecidableEq, Repr

/-- A Discord message as delivered to the MessageCreate and
MessageUpdate handlers. -/
structure DiscordMessage where
  ID : String
  ChannelID : String
  AuthorID : String
  AuthorUsername : String
  Content : String
  Attachments : List DiscordAttachment
deriving DecidableEq, Repr

/-- The structured payload of an outbound Matrix SendMessageEvent call:
a media/file event, or the replacement event the MessageUpdate handler
builds. -/
inductive MatrixPayload where
  | media (body filename msgtype url mimetype : String) (size : Int)
  | replaceText (body newBody newFormattedBody replacesEventID : String)
deriving DecidableEq, Repr

/-- An outbound Matrix-side call issued while handling a Discord
event. -/
inductive MatrixCall where
  | sendFormattedText (roomID plain formatted : String)
  | uploadLink (url : String)
  | sendMessageEvent (roomID : String) (payload : MatrixPayload)
deriving DecidableEq, Repr

/-- Results of the external calls the MessageCreate handler can make,
plus the string glue it delegates: the event returned by
SendFormattedText (`none` when it errors), the content URI returned by
UploadLink, the markdown renderer, html.EscapeString, and the float
formatting inside fileSize. -/
structure DiscordExt where
  sendTextResult : Option String
  uploadURI : String
  render : String → String
  escape : String → String
  sizeStr : Int → String

/-- One `<tr>` row of the multi-attachment summary table (main.go). -/
def attachmentRow (escape : String → String) (sizeStr : Int → String)
    (a : DiscordAttachment) : String :=
  "<tr><td><a href=\"" ++ a.URL ++ "\">" ++ escape a.Filename ++
    "</a></td><td>" ++ a.ContentType ++ "</td><td>" ++ sizeStr a.Size ++
    "</td></tr>"

/-- One plain-text line of the multi-attachment summary (main.go). -/
def attachmentLine (sizeStr : Int → String) (a : DiscordAttachment) :
    String :=
  "\n" ++ a.Filename ++ " (" ++ sizeStr a.Size ++ "): " ++ a.URL

/-- The attachment calls of the MessageCreate handler: exactly one
attachment of at most 64 KiB is uploaded and sent as a typed media
event; otherwise a non-empty attachment list becomes one formatted
summary table. -/
def attachmentCalls (ext : DiscordExt) (roomID : String)
    (m : DiscordMessage) : List MatrixCall :=
  let tableCalls :=
    [MatrixCall.sendFormattedText roomID
      (m.Attachments.foldl (fun s a => s ++ attachmentLine ext.sizeStr a)
        (m.AuthorUsername ++ " uploaded files"))
      ((m.Attachments.foldl (fun s a => s ++ attachmentRow ext.escape ext.sizeStr a)
        ("<b>" ++ m.AuthorUsername ++
          "</b> uploaded files<table><tr><th>Link</th><th>MIME Type</th><th>Size</th></tr>"))
        ++ "</table>")]
  match m.Attachments with
  | [] => []
  | [a] =>
    if a.Size ≤ 64 * 1024 then
      [.uploadLink a.URL,
       .sendMessageEvent roomID (.media
         (m.AuthorUsername ++ " uploaded " ++ a.Filename) a.Filename
         (if a.ContentType.startsWith "image/" then "m.image" else "m.file")
         ext.uploadURI a.ContentType a.Size)]
    else tableCalls
  | _ => tableCalls

/-- The MessageCreate handler (main.go): drop messages authored by the
bot's own account or by any webhook identity the cache owns, and
messages in unmapped channels; relay non-empty text via
SendFormattedText and attachments per `attachmentCalls`; only a
successful text send (the only captured result) reaches
MessageManager.Add. -/
def handleMessageCreate (cfg : Config) (botUserID : String)
    (ext : DiscordExt) (wm : Webhooks) (mm : MessageManager)
    (m : DiscordMessage) : MessageManager × List MatrixCall :=
  if m.AuthorID = botUserID ∨ webhooksHas wm m.AuthorID = true then (mm, [])
  else
    let roomID := lookupOr cfg.bridge m.ChannelID
    if roomID = "" then (mm, [])
    else
      let textResult : Option String :=
        if m.Content ≠ "" then ext.sendTextResult else none
      let textCalls : List MatrixCall :=
        if m.Content ≠ "" then
          [.sendFormattedText roomID (m.AuthorUsername ++ ": " ++ m.Content)
            (discordMsgToMatrixHTML ext.render m.AuthorUsername m.Content)]
        else []
      match textResult with
      | some eventID =>
        (mm.Add { DiscordID := m.ID, WebhookID := "", WebhookToken := "",
                  MatrixID := eventID, RoomID := roomID },
         textCalls ++ attachmentCalls ext roomID m)
      | none => (mm, textCalls ++ attachmentCalls ext roomID m)

/-- The MessageUpdate handler (main.go): if the updated Discord message
id has a correlation record, send one Matrix replacement event to the
stored room, relating to the stored Matrix event id; otherwise do
nothing.  The author is never inspected for loop prevention here, the
SendMessageEvent result is discarded, and no state is changed. -/
def handleMessageUpdate (render : String → String) (mm : MessageManager)
    (m : DiscordMessage) : List MatrixCall :=
  match mm.GetDiscord m.ID with
  | none => []
  | some info =>
    [.sendMessageEvent info.RoomID (.replaceText
      ("* " ++ m.AuthorUsername ++ ": " ++ m.Content)
      (m.AuthorUsername ++ ": " ++ m.Content)
      (discordMsgToMatrixHTML render m.AuthorUsername m.Content)
      info.MatrixID)]

/-- The correlation-store invariant of the spec: every record found
through either index carries the key it was found under (so each
identifier resolves to exactly one record), and the opposite index
resolves that record's other identifier to the same record. -/
def Coherent (m : MessageManager) : Prop :=
  (∀ k rec, m.GetMatrix k = some rec →
     rec.MatrixID = k ∧ m.GetDiscord rec.DiscordID = some rec) ∧
  (∀ k rec, m.GetDiscord k = some rec →
     rec.DiscordID = k ∧ m.GetMatrix rec.MatrixID = some rec)

theorem lookup_append_self {α : Type} (l : List (String × α)) (k : String)
    (v : α) (h : l.lookup k = none) : (l ++ [(k, v)]).lookup k = some v := by
  induction l with
  | nil => simp [List.lookup]
  | cons p rest ih =>
    simp only [List.lookup] at h
    cases hkp : (k == p.1) with
    | true => rw [hkp] at h; simp at h
    | false =>
      rw [hkp] at h
      simp only [cond_false] at h
      rw [List.cons_append]
      simp only [List.lookup, hkp, cond_false]
      exact ih h

theorem lookup_append_other {α : Type} (l : List (String × α)) (k q : String)
    (v : α) (h : q ≠ k) : (l ++ [(k, v)]).lookup q = l.lookup q := by
  induction l with
  | nil =>
    simp only [List.nil_append, List.lookup]
    rw [beq_false_of_ne h]
  | cons p rest ih =>
    rw [List.cons_append]
    simp only [List.lookup]
    cases hqp : (q == p.1) with
    | true => rfl
    | false => simpa only [cond_false] using ih

/-- C10: an inbound Matrix event timestamped strictly before the
recorded process-start time is ignored by the m.room.message handler:
no state changes and no outbound call is issued, regardless of the
event's content, sender, or room. -/
theorem C10_replay_suppression (cfg : Config) (startTime : Int)
    (ext : MatrixExt) (wm : Webhooks) (mm : MessageManager)
    (ev : MatrixEvent) (h : ev.Timestamp < startTime) :
    handleMatrixEvent cfg startTime ext wm mm ev = (wm, mm, []) := by
  simp [handleMatrixEvent, h]

/-- Witness for C10: a concrete event timestamped before process
start is dropped. -/
theorem C10_replay_suppression_witness :
    handleMatrixEvent ⟨"@bot:hs", [], []⟩ 0
      ⟨.error "e", none, false, ""⟩ [] MessageManager.empty
      ⟨"E1", "@alice:hs", "!r:hs", -1,
        { msgtype := some "m.text", body := some "hi" }⟩ =
      ([], MessageManager.empty, []) :=
  C10_replay_suppression _ 0 _ [] MessageManager.empty _ (by decide)

/-- C8: a replacement event whose replaced event id has no correlation
record is dropped: the handler changes no state and issues zero calls
to the Discord send or edit operations. -/
theorem C8_unknown_edit_safety (cfg : Config) (startTime : Int)
    (ext : MatrixExt) (wm : Webhooks) (mm : MessageManager)
    (ev : MatrixEvent) (rel : RelatesTo)
    (hrel : ev.Content.relatesTo = some rel)
    (htype : rel.relType = some "m.replace")
    (hmiss : mm.GetMatrix (sprint rel.eventID) = none) :
    handleMatrixEvent cfg startTime ext wm mm ev = (wm, mm, []) := by
  by_cases h1 : ev.Timestamp < startTime
  · simp [handleMatrixEvent, h1]
  · by_cases h2 : ev.Sender = cfg.matrixUsername
    · simp [handleMatrixEvent, h1, h2]
    · by_cases h3 : lookupOr cfg.matrixToDiscord ev.RoomID = ""
      · simp [handleMatrixEvent, h1, h2, h3]
      · simp [handleMatrixEvent, h1, h2, h3, hrel, htype, hmiss]

/-- Witness for C8: a concrete replacement event referencing an
unrecorded origin id produces nothing against an empty store. -/
theorem C8_unknown_edit_safety_witness :
    handleMatrixEvent ⟨"@bot:hs", [("C1", "!r:hs")], [("!r:hs", "C1")]⟩ 0
      ⟨.error "e", none, false, ""⟩ [] MessageManager.empty
      ⟨"E2", "@alice:hs", "!r:hs", 5,
        { msgtype := some "m.text", body := some "hi",
          relatesTo := some ⟨some "m.replace", some "X"⟩ }⟩ =
      ([], MessageManager.empty, []) :=
  C8_unknown_edit_safety _ _ _ _ _ _ _ rfl rfl rfl

/-- C3: a replacement event referencing a recorded origin id (with
replacement content present, as a well-formed m.replace event carries)
results in exactly one WebhookMessageEdit call addressed to the stored
credential and stored destination message id, never a WebhookExecute
call, and neither the identity cache nor the correlation store
changes. -/
theorem C3_edit_correctness (cfg : Config) (startTime : Int)
    (ext : MatrixExt) (wm : Webhooks) (mm : MessageManager)
    (ev : MatrixEvent) (rel : RelatesTo) (nc : NewContent)
    (info : MessageInfo)
    (h1 : ¬ ev.Timestamp < startTime)
    (h2 : ev.Sender ≠ cfg.matrixUsername)
    (h3 : lookupOr cfg.matrixToDiscord ev.RoomID ≠ "")
    (hrel : ev.Content.relatesTo = some rel)
    (htype : rel.relType = some "m.replace")
    (hfound : mm.GetMatrix (sprint rel.eventID) = some info)
    (hnc : ev.Content.newContent = some nc) :
    handleMatrixEvent cfg startTime ext wm mm ev =
      (wm, mm, [.webhookMessageEdit info.WebhookID info.WebhookToken
        info.DiscordID (matrixMsgToDiscord ev.Sender nc.msgtype nc.body)]) := by
  simp [handleMatrixEvent, h1, h2, h3, hrel, htype, hfound, hnc]

/-- Witness for C3: after a relay recorded (O1, D1) with credential
(W1, T1), a concrete replacement of O1 yields exactly the edit call for
(W1, T1, D1). -/
theorem C3_edit_correctness_witness :
    handleMatrixEvent ⟨"@bot:hs", [("C1", "!r:hs")], [("!r:hs", "C1")]⟩ 0
      ⟨.error "e", none, false, ""⟩ []
      (MessageManager.empty.Add { DiscordID := "D1", WebhookID := "W1",
                                  WebhookToken := "T1", MatrixID := "O1",
                                  RoomID := "!r:hs" })
      ⟨"E3", "@alice:hs", "!r:hs", 5,
        { msgtype := some "m.text", body := some "* new",
          relatesTo := some ⟨some "m.replace", some "O1"⟩,
          newContent := some ⟨some "m.text", some "new"⟩ }⟩ =
      ([], MessageManager.empty.Add { DiscordID := "D1", WebhookID := "W1",
                                      WebhookToken := "T1", MatrixID := "O1",
                                      RoomID := "!r:hs" },
        [.webhookMessageEdit "W1" "T1" "D1"
          (matrixMsgToDiscord "@alice:hs" (some "m.text") (some "new"))]) :=
  C3_edit_correctness _ _ _ _ _ _ _ _
    { DiscordID := "D1", WebhookID := "W1", WebhookToken := "T1",
      MatrixID := "O1", RoomID := "!r:hs" }
    (by decide) (by decide) (by decide) rfl rfl (by decide) rfl

/-- C7: immediately after Add of a record, GetMatrix at the record's
Matrix id and GetDiscord at its Discord id return one and the same
record, carrying exactly that origin id and destination id. -/
theorem C7_correlation_symmetry_after_add (m : MessageManager)
    (msg : MessageInfo) :
    ∃ rec, (m.Add msg).GetMatrix msg.MatrixID = some rec ∧
      (m.Add msg).GetDiscord msg.DiscordID = some rec ∧
      rec.MatrixID = msg.MatrixID ∧ rec.DiscordID = msg.DiscordID := by
  refine ⟨msg, ?_, ?_, rfl, rfl⟩ <;>
    simp [MessageManager.Add, MessageManager.GetMatrix,
      MessageManager.GetDiscord, massign]

/-- C5: WebhookManager.Get returns a cached credential with no
creation call and no state change; on a miss it issues exactly one
creation call and, when creation succeeds, stores the credential,
persists the full cache, returns the new credential, and a repeated
call for the same pair then returns that same credential with no
further creation; when creation fails it returns the error and changes
nothing. -/
theorem C5_identity_cache_resolve (wm : Webhooks)
    (channel username : String) (res : Except String WebhookInfo) :
    (∀ w, wm.lookup (webhookKey channel username) = some w →
       webhooksGet wm channel username res = ⟨wm, [], w.ID, w.Token, none⟩) ∧
    (wm.lookup (webhookKey channel username) = none →
      (∀ w, res = .ok w →
         webhooksGet wm channel username res =
           ⟨wm ++ [(webhookKey channel username, w)],
            [.webhookCreate channel username,
             .saveWebhooks (wm ++ [(webhookKey channel username, w)])],
            w.ID, w.Token, none⟩ ∧
         ∀ res2, webhooksGet (wm ++ [(webhookKey channel username, w)])
             channel username res2 =
           ⟨wm ++ [(webhookKey channel username, w)], [], w.ID, w.Token,
            none⟩) ∧
      (∀ e, res = .error e →
         webhooksGet wm channel username res =
           ⟨wm, [.webhookCreate channel username], "", "", some e⟩)) := by
  refine ⟨fun w hw => ?_, fun hnone => ⟨fun w hres => ⟨?_, fun res2 => ?_⟩,
    fun e hres => ?_⟩⟩
  · simp [webhooksGet, hw]
  · subst hres; simp [webhooksGet, hnone]
  · have hhit := lookup_append_self wm (webhookKey channel username) w hnone
    simp [webhooksGet, hhit]
  · subst hres; simp [webhooksGet, hnone]

/-- Witness for C5: resolving an uncached pair with a successful
creation stores and persists the credential and returns it. -/
theorem C5_identity_cache_resolve_witness :
    webhooksGet [] "C1" "@alice:hs" (.ok ⟨"W1", "T1"⟩) =
      ⟨[(webhookKey "C1" "@alice:hs", ⟨"W1", "T1"⟩)],
       [.webhookCreate "C1" "@alice:hs",
        .saveWebhooks [(webhookKey "C1" "@alice:hs", ⟨"W1", "T1"⟩)]],
       "W1", "T1", none⟩ :=
  (((C5_identity_cache_resolve [] "C1" "@alice:hs" (.ok ⟨"W1", "T1"⟩)).2
    rfl).1 ⟨"W1", "T1"⟩ rfl).1

theorem coherent_empty : Coherent MessageManager.empty := by
  constructor <;> intro k rec h <;>
    simp [MessageManager.empty, MessageManager.GetMatrix,
      MessageManager.GetDiscord] at h

theorem getMatrix_add (m : MessageManager) (msg : MessageInfo)
    (k : String) :
    (m.Add msg).GetMatrix k =
      if k = msg.MatrixID then some msg else m.GetMatrix k := by
  simp [MessageManager.Add, MessageManager.GetMatrix, massign]

theorem getDiscord_add (m : MessageManager) (msg : MessageInfo)
    (k : String) :
    (m.Add msg).GetDiscord k =
      if k = msg.DiscordID then some msg else m.GetDiscord k := by
  simp [MessageManager.Add, MessageManager.GetDiscord, massign]

theorem coherent_add (m : MessageManager) (msg : MessageInfo)
    (hc : Coherent m)
    (h1 : m.GetMatrix msg.MatrixID = none)
    (h2 : m.GetDiscord msg.DiscordID = none) :
    Coherent (m.Add msg) := by
  obtain ⟨hm, hd⟩ := hc
  constructor
  · intro k rec h
    rw [getMatrix_add] at h
    by_cases hk : k = msg.MatrixID
    · rw [if_pos hk] at h
      obtain rfl : msg = rec := by injection h
      exact ⟨hk.symm, by rw [getDiscord_add, if_pos rfl]⟩
    · rw [if_neg hk] at h
      obtain ⟨hid, hother⟩ := hm k rec h
      refine ⟨hid, ?_⟩
      rw [getDiscord_add, if_neg ?_]
      · exact hother
      · intro heq
        rw [heq] at hother
        rw [hother] at h2
        exact Option.noConfusion h2
  · intro k rec h
    rw [getDiscord_add] at h
    by_cases hk : k = msg.DiscordID
    · rw [if_pos hk] at h
      obtain rfl : msg = rec := by injection h
      exact ⟨hk.symm, by rw [getMatrix_add, if_pos rfl]⟩
    · rw [if_neg hk] at h
      obtain ⟨hid, hother⟩ := hd k rec h
      refine ⟨hid, ?_⟩
      rw [getMatrix_add, if_neg ?_]
      · exact hother
      · intro heq
        rw [heq] at hother
        rw [hother] at h1
        exact Option.noConfusion h1

theorem coherent_foldl (l : List MessageInfo) :
    ∀ m : MessageManager, Coherent m →
    (∀ a ∈ l, m.GetMatrix a.MatrixID = none ∧
       m.GetDiscord a.DiscordID = none) →
    (l.map MessageInfo.MatrixID).Nodup →
    (l.map MessageInfo.DiscordID).Nodup →
    Coherent (l.foldl MessageManager.Add m) := by
  induction l with
  | nil => intro m hc _ _ _; exact hc
  | cons a rest ih =>
    intro m hc hfresh hnm hnd
    rw [List.foldl_cons]
    have ha := hfresh a (List.mem_cons_self a rest)
    refine ih (m.Add a) (coherent_add m a hc ha.1 ha.2) ?_ ?_ ?_
    · intro b hb
      have hbfresh := hfresh b (List.mem_cons_of_mem a hb)
      simp only [List.map_cons, List.nodup_cons] at hnm hnd
      have hbm : b.MatrixID ≠ a.MatrixID := by
        intro heq
        exact hnm.1 (heq ▸ List.mem_map_of_mem MessageInfo.MatrixID hb)
      have hbd : b.DiscordID ≠ a.DiscordID := by
        intro heq
        exact hnd.1 (heq ▸ List.mem_map_of_mem MessageInfo.DiscordID hb)
      rw [getMatrix_add, if_neg hbm, getDiscord_add, if_neg hbd]
      exact hbfresh
    · simp only [List.map_cons, List.nodup_cons] at hnm
      exact hnm.2
    · simp only [List.map_cons, List.nodup_cons] at hnd
      exact hnd.2

/-- C6 counterexample: the symmetry invariant does not hold in every
state reachable by Add calls.  Two Adds sharing the Discord id d1 but
with different Matrix ids leave the record found at origin m1 pointing
at destination d1, while the destination index resolves d1 to the other
record — the two lookups do not resolve the same record. -/
theorem C6_correlation_invariant_counterexample :
    ((MessageManager.empty.Add { DiscordID := "d1", MatrixID := "m1" }).Add
        { DiscordID := "d1", MatrixID := "m2" }).GetMatrix "m1" =
      some { DiscordID := "d1", MatrixID := "m1" } ∧
    ((MessageManager.empty.Add { DiscordID := "d1", MatrixID := "m1" }).Add
        { DiscordID := "d1", MatrixID := "m2" }).GetDiscord "d1" =
      some { DiscordID := "d1", MatrixID := "m2" } ∧
    ({ DiscordID := "d1", MatrixID := "m1" } : MessageInfo) ≠
      { DiscordID := "d1", MatrixID := "m2" } := by
  refine ⟨?_, ?_, ?_⟩ <;> decide

/-- C6 amended: in every state built by a sequence of Add calls over
records with pairwise-distinct origin identifiers and
pairwise-distinct destination identifiers (starting from the empty
store; a loaded store performs the same per-record insertions), each
identifier resolves to exactly one record carrying that identifier,
and the mapping is symmetric: the record found through either index is
the record the opposite index yields for its other identifier. -/
theorem C6_correlation_invariant_amended (l : List MessageInfo)
    (h1 : (l.map MessageInfo.MatrixID).Nodup)
    (h2 : (l.map MessageInfo.DiscordID).Nodup) :
    Coherent (MessageManager.load l) :=
  coherent_foldl l MessageManager.empty coherent_empty
    (fun _ _ => ⟨rfl, rfl⟩) h1 h2

/-- Witness for C6 amended: two records with distinct identifiers load
into a coherent store. -/
theorem C6_correlation_invariant_amended_witness :
    Coherent (MessageManager.load
      [{ DiscordID := "d1", MatrixID := "m1" },
       { DiscordID := "d2", MatrixID := "m2" }]) :=
  C6_correlation_invariant_amended
    [{ DiscordID := "d1", MatrixID := "m1" },
     { DiscordID := "d2", MatrixID := "m2" }] (by decide) (by decide)

theorem handleMatrixEvent_newRelay (cfg : Config) (startTime : Int)
    (ext : MatrixExt) (wm : Webhooks) (mm : MessageManager)
    (ev : MatrixEvent)
    (h1 : ¬ ev.Timestamp < startTime)
    (h2 : ev.Sender ≠ cfg.matrixUsername)
    (h3 : lookupOr cfg.matrixToDiscord ev.RoomID ≠ "")
    (h4 : isReplace ev = false) :
    handleMatrixEvent cfg startTime ext wm mm ev =
      matrixNewRelay ext wm mm ev (lookupOr cfg.matrixToDiscord ev.RoomID) := by
  unfold isReplace at h4
  cases hrel : ev.Content.relatesTo with
  | none => simp [handleMatrixEvent, h1, h2, h3, hrel]
  | some rel =>
    rw [hrel] at h4
    simp only [decide_eq_false_iff_not] at h4
    simp [handleMatrixEvent, h1, h2, h3, hrel, h4]

theorem handleMatrixEvent_cases (cfg : Config) (startTime : Int)
    (ext : MatrixExt) (wm : Webhooks) (mm : MessageManager)
    (ev : MatrixEvent) :
    handleMatrixEvent cfg startTime ext wm mm ev =
      matrixNewRelay ext wm mm ev (lookupOr cfg.matrixToDiscord ev.RoomID) ∨
    ∃ calls, handleMatrixEvent cfg startTime ext wm mm ev =
      (wm, mm, calls) := by
  simp only [handleMatrixEvent]
  split
  · right; exact ⟨[], rfl⟩
  · split
    · right; exact ⟨[], rfl⟩
    · split
      · right; exact ⟨[], rfl⟩
      · split
        · split
          · split
            · right; exact ⟨[], rfl⟩
            · split
              · right; exact ⟨[], rfl⟩
              · right; exact ⟨_, rfl⟩
          · left; rfl
        · left; rfl

theorem matrixNewRelay_store_execNone (ext : MatrixExt) (wm : Webhooks)
    (mm : MessageManager) (ev : MatrixEvent) (c : String)
    (hx : ext.executeResult = none) :
    (matrixNewRelay ext wm mm ev c).2.1 = mm := by
  unfold matrixNewRelay
  simp only [hx]
  split
  · rfl
  · split
    · rfl
    · split
      · split <;> rfl
      · rfl

theorem matrixNewRelay_store_notText (ext : MatrixExt) (wm : Webhooks)
    (mm : MessageManager) (ev : MatrixEvent) (c : String)
    (ht : sprint ev.Content.msgtype ∉
      (["m.text", "m.notice", "m.emote"] : List String)) :
    (matrixNewRelay ext wm mm ev c).2.1 = mm := by
  unfold matrixNewRelay
  rw [if_neg ht]
  split
  · rfl
  · split
    · split <;> rfl
    · rfl

theorem matrixNewRelay_text_success (ext : MatrixExt) (wm : Webhooks)
    (mm : MessageManager) (ev : MatrixEvent) (c : String)
    (w : WebhookInfo) (did : String)
    (hw : wm.lookup (webhookKey c ev.Sender) = some w)
    (ht : sprint ev.Content.msgtype ∈
      (["m.text", "m.notice", "m.emote"] : List String))
    (hx : ext.executeResult = some did) :
    matrixNewRelay ext wm mm ev c =
      (wm,
       mm.Add { WebhookID := w.ID, WebhookToken := w.Token,
                DiscordID := did, MatrixID := ev.ID, RoomID := ev.RoomID },
       [.webhookExecute w.ID w.Token true (.text
         (matrixMsgToDiscord ev.Sender ev.Content.msgtype ev.Content.body)
         (stripMatrixName ev.Sender))]) := by
  have hg : webhooksGet wm c ev.Sender ext.createResult =
      ⟨wm, [], w.ID, w.Token, none⟩ := by
    simp [webhooksGet, hw]
  unfold matrixNewRelay
  rw [hg, if_pos ht, hx]
  rfl

theorem matrixNewRelay_createError (ext : MatrixExt) (wm : Webhooks)
    (mm : MessageManager) (ev : MatrixEvent) (c : String) (e : String)
    (hkey : wm.lookup (webhookKey c ev.Sender) = none)
    (hc : ext.createResult = .error e) :
    (matrixNewRelay ext wm mm ev c).1 = wm ∧
    (ext.executeResult = none → (matrixNewRelay ext wm mm ev c).2.1 = mm) ∧
    (sprint ev.Content.msgtype ∈
        (["m.text", "m.notice", "m.emote"] : List String) →
      (matrixNewRelay ext wm mm ev c).2.2 =
        .webhookCreate c ev.Sender ::
        .webhookExecute "" "" true (.text
          (matrixMsgToDiscord ev.Sender ev.Content.msgtype ev.Content.body)
          (stripMatrixName ev.Sender)) ::
        (if ext.executeResult = none then [] else [])) := by
  have hg : webhooksGet wm c ev.Sender ext.createResult =
      ⟨wm, [.webhookCreate c ev.Sender], "", "", some e⟩ := by
    simp [webhooksGet, hkey, hc]
  refine ⟨?_, matrixNewRelay_store_execNone ext wm mm ev c, ?_⟩
  · unfold matrixNewRelay
    rw [hg]
    split
    · split <;> rfl
    · split
      · rfl
      · split
        · split <;> rfl
        · rfl
  · intro ht
    unfold matrixNewRelay
    rw [hg, if_pos ht]
    cases hx : ext.executeResult with
    | some did => simp
    | none => simp

/-- C1 counterexample: loop prevention does not cover every kind of
inbound Discord event.  With webhook W1 owned by the identity cache and
a correlation record for Discord message D1, a message-update event for
D1 authored by W1 is still passed to the translate/send step: the
MessageUpdate handler consults only the correlation store, never the
owned set, and issues a Matrix send. -/
theorem C1_loop_prevention_counterexample :
    webhooksHas [("C1 | @alice:hs", ⟨"W1", "T1"⟩)] "W1" = true ∧
    handleMessageUpdate (fun s => s)
      (MessageManager.empty.Add { DiscordID := "D1", WebhookID := "W1",
                                  WebhookToken := "T1", MatrixID := "O1",
                                  RoomID := "!r:hs" })
      { ID := "D1", ChannelID := "C1", AuthorID := "W1",
        AuthorUsername := "alice", Content := "edited",
        Attachments := [] } ≠ [] := by
  refine ⟨by decide, ?_⟩
  decide

/-- C1 amended: an inbound Discord message-creation event whose author
account identifier is in the identity cache's owned set is never
passed to the translate/send step — the MessageCreate handler drops it
with no call and no state change, for all such identifiers and states.
(The MessageUpdate handler performs no owned-set check, so the
guarantee is limited to message-creation events.) -/
theorem C1_loop_prevention_amended (cfg : Config) (botUserID : String)
    (ext : DiscordExt) (wm : Webhooks) (mm : MessageManager)
    (m : DiscordMessage) (h : webhooksHas wm m.AuthorID = true) :
    handleMessageCreate cfg botUserID ext wm mm m = (mm, []) := by
  unfold handleMessageCreate
  rw [if_pos (Or.inr h)]

/-- Witness for C1 amended: a concrete creation event authored by the
owned webhook identifier W1 is dropped. -/
theorem C1_loop_prevention_amended_witness :
    handleMessageCreate ⟨"@bot:hs", [("C1", "!r:hs")], [("!r:hs", "C1")]⟩
      "B1" ⟨none, "", fun s => s, fun s => s, fun _ => ""⟩
      [("C1 | @alice:hs", ⟨"W1", "T1"⟩)] MessageManager.empty
      { ID := "D5", ChannelID := "C1", AuthorID := "W1",
        AuthorUsername := "alice", Content := "hello",
        Attachments := [] } = (MessageManager.empty, []) :=
  C1_loop_prevention_amended _ _ _ _ _ _ (by decide)

/-- C2 counterexample: there is an edit path from Discord to Matrix.  A
Discord message-update event whose id has a correlation record produces
a Matrix send: a replacement event in the stored room relating to the
stored Matrix event id. -/
theorem C2_no_edit_path_counterexample :
    handleMessageUpdate (fun s => s)
      (MessageManager.empty.Add { DiscordID := "D2", MatrixID := "O2",
                                  RoomID := "!r:hs" })
      { ID := "D2", ChannelID := "C1", AuthorID := "U7",
        AuthorUsername := "bob", Content := "fixed",
        Attachments := [] } =
      [.sendMessageEvent "!r:hs" (.replaceText "* bob: fixed" "bob: fixed"
        (discordMsgToMatrixHTML (fun s => s) "bob" "fixed") "O2")] := by
  simp [handleMessageUpdate, MessageManager.GetDiscord, MessageManager.Add,
    MessageManager.empty, massign]

/-- C2 amended: for every Discord update event whose message id has no
correlation record, nothing is propagated to Matrix; when a record
exists, exactly one Matrix send is issued — a replacement event
addressed to the stored room and relating to the stored Matrix event
id — and no edit call or state change occurs. -/
theorem C2_discord_edit_path_amended (render : String → String)
    (mm : MessageManager) (m : DiscordMessage) :
    (mm.GetDiscord m.ID = none → handleMessageUpdate render mm m = []) ∧
    (∀ info, mm.GetDiscord m.ID = some info →
       handleMessageUpdate render mm m =
         [.sendMessageEvent info.RoomID (.replaceText
           ("* " ++ m.AuthorUsername ++ ": " ++ m.Content)
           (m.AuthorUsername ++ ": " ++ m.Content)
           (discordMsgToMatrixHTML render m.AuthorUsername m.Content)
           info.MatrixID)]) := by
  constructor
  · intro h; simp [handleMessageUpdate, h]
  · intro info h; simp [handleMessageUpdate, h]

/-- Witness for C2 amended: an update to an uncorrelated Discord
message id propagates nothing. -/
theorem C2_discord_edit_path_amended_witness :
    handleMessageUpdate (fun s => s) MessageManager.empty
      { ID := "D3", ChannelID := "C1", AuthorID := "U7",
        AuthorUsername := "bob", Content := "zzz",
        Attachments := [] } = [] :=
  (C2_discord_edit_path_amended (fun s => s) MessageManager.empty
    { ID := "D3", ChannelID := "C1", AuthorID := "U7",
      AuthorUsername := "bob", Content := "zzz",
      Attachments := [] }).1 rfl

/-- C9 counterexample: when creating the webhook identity fails, the
triggering event is not dropped without a send attempt.  The handler
only logs the error and falls through, so a concrete text event whose
webhook creation fails still produces a WebhookExecute call — issued
with the empty id and token that Get returned alongside the error. -/
theorem C9_identity_failure_counterexample :
    handleMatrixEvent ⟨"@bot:hs", [("C1", "!r:hs")], [("!r:hs", "C1")]⟩ 0
      ⟨.error "api error", none, false, ""⟩ [] MessageManager.empty
      ⟨"E1", "@alice:hs", "!r:hs", 5,
        { msgtype := some "m.text", body := some "hi" }⟩ =
      ([], MessageManager.empty,
       [.webhookCreate "C1" "@alice:hs",
        .webhookExecute "" "" true (.text
          (matrixMsgToDiscord "@alice:hs" (some "m.text") (some "hi"))
          (stripMatrixName "@alice:hs"))]) := rfl

/-- C9 amended: when creating an impersonation identity fails with a
remote error during a new relay, no cache entry is added for the pair
and — since the WebhookExecute issued with the empty credentials
returns no message — no correlation record is written; the handler
does not drop the event, however: for a text-kind event it still
attempts the send with empty webhook id and token. -/
theorem C9_identity_failure_amended (cfg : Config) (startTime : Int)
    (ext : MatrixExt) (wm : Webhooks) (mm : MessageManager)
    (ev : MatrixEvent) (e : String)
    (hkey : wm.lookup (webhookKey (lookupOr cfg.matrixToDiscord ev.RoomID)
      ev.Sender) = none)
    (hc : ext.createResult = .error e)
    (hx : ext.executeResult = none) :
    (handleMatrixEvent cfg startTime ext wm mm ev).1 = wm ∧
    (handleMatrixEvent cfg startTime ext wm mm ev).2.1 = mm ∧
    (¬ ev.Timestamp < startTime → ev.Sender ≠ cfg.matrixUsername →
      lookupOr cfg.matrixToDiscord ev.RoomID ≠ "" → isReplace ev = false →
      sprint ev.Content.msgtype ∈
        (["m.text", "m.notice", "m.emote"] : List String) →
      (handleMatrixEvent cfg startTime ext wm mm ev).2.2 =
        [.webhookCreate (lookupOr cfg.matrixToDiscord ev.RoomID) ev.Sender,
         .webhookExecute "" "" true (.text
           (matrixMsgToDiscord ev.Sender ev.Content.msgtype ev.Content.body)
           (stripMatrixName ev.Sender))]) := by
  obtain ⟨hcache, hstore, hcalls⟩ :=
    matrixNewRelay_createError ext wm mm ev
      (lookupOr cfg.matrixToDiscord ev.RoomID) e hkey hc
  refine ⟨?_, ?_, ?_⟩
  · rcases handleMatrixEvent_cases cfg startTime ext wm mm ev with h | ⟨calls, h⟩
    · rw [h]; exact hcache
    · rw [h]
  · rcases handleMatrixEvent_cases cfg startTime ext wm mm ev with h | ⟨calls, h⟩
    · rw [h]; exact hstore hx
    · rw [h]
  · intro h1 h2 h3 h4 ht
    rw [handleMatrixEvent_newRelay cfg startTime ext wm mm ev h1 h2 h3 h4]
    rw [hcalls ht, hx]
    simp

/-- Witness for C9 amended: a concrete uncached pair with a failing
creation leaves both stores unchanged. -/
theorem C9_identity_failure_amended_witness :
    (handleMatrixEvent ⟨"@bot:hs", [("C1", "!r:hs")], [("!r:hs", "C1")]⟩ 0
      ⟨.error "api error", none, false, ""⟩ [] MessageManager.empty
      ⟨"E1", "@alice:hs", "!r:hs", 5,
        { msgtype := some "m.text", body := some "hi" }⟩).1 = [] ∧
    (handleMatrixEvent ⟨"@bot:hs", [("C1", "!r:hs")], [("!r:hs", "C1")]⟩ 0
      ⟨.error "api error", none, false, ""⟩ [] MessageManager.empty
      ⟨"E1", "@alice:hs", "!r:hs", 5,
        { msgtype := some "m.text", body := some "hi" }⟩).2.1 =
      MessageManager.empty :=
  ⟨(C9_identity_failure_amended ⟨"@bot:hs", [("C1", "!r:hs")], [("!r:hs", "C1")]⟩
      0 ⟨.error "api error", none, false, ""⟩ [] MessageManager.empty
      ⟨"E1", "@alice:hs", "!r:hs", 5,
        { msgtype := some "m.text", body := some "hi" }⟩
      "api error" rfl rfl rfl).1,
   (C9_identity_failure_amended ⟨"@bot:hs", [("C1", "!r:hs")], [("!r:hs", "C1")]⟩
      0 ⟨.error "api error", none, false, ""⟩ [] MessageManager.empty
      ⟨"E1", "@alice:hs", "!r:hs", 5,
        { msgtype := some "m.text", body := some "hi" }⟩
      "api error" rfl rfl rfl).2.1⟩

/-- C4 counterexample: a correlation record is not created on every
successful relay.  A concrete m.image event that passes all filters and
whose WebhookExecute succeeds (returning message D9) writes no record:
the media branch discards the returned message, so the store is
unchanged and neither E1 nor D9 is correlated. -/
theorem C4_record_on_success_counterexample :
    handleMatrixEvent ⟨"@bot:hs", [("C1", "!r:hs")], [("!r:hs", "C1")]⟩ 0
      ⟨.ok ⟨"W9", "T9"⟩, some "D9", true, ".png"⟩
      [("C1 | @alice:hs", ⟨"W1", "T1"⟩)] MessageManager.empty
      ⟨"E1", "@alice:hs", "!r:hs", 5,
        { msgtype := some "m.image", url := some "mxc://hs/abc",
          mimetype := some "image/png" }⟩ =
      ([("C1 | @alice:hs", ⟨"W1", "T1"⟩)], MessageManager.empty,
       [.webhookExecute "W1" "T1" true (.files
         ((sprint (some "m.image")).drop 2 ++ ".png")
         (sprint (some "image/png")) (stripMatrixName "@alice:hs"))]) ∧
    (MessageManager.empty.GetMatrix "E1" = none ∧
     MessageManager.empty.GetDiscord "D9" = none) :=
  ⟨rfl, rfl, rfl⟩

/-- C4 amended: a correlation record is written exactly when the
text-branch send succeeds.  On the Matrix side: no record when the
send fails or when the msgtype is not text/notice/emote (media and
file relays discard the returned message); a record with the new
origin/destination pair when a text-kind send succeeds.  On the
Discord side: no record when the text send fails or the message has no
text content (attachment-only relays capture no event); a record with
the new pair when the non-empty text send succeeds. -/
theorem C4_record_lifecycle_amended (cfg : Config) (startTime : Int)
    (ext : MatrixExt) (botUserID : String) (dext : DiscordExt)
    (wm : Webhooks) (mm : MessageManager) (ev : MatrixEvent)
    (dm : DiscordMessage) :
    (ext.executeResult = none →
      (handleMatrixEvent cfg startTime ext wm mm ev).2.1 = mm) ∧
    (sprint ev.Content.msgtype ∉
        (["m.text", "m.notice", "m.emote"] : List String) →
      (handleMatrixEvent cfg startTime ext wm mm ev).2.1 = mm) ∧
    (∀ did w, ext.executeResult = some did →
      ¬ ev.Timestamp < startTime → ev.Sender ≠ cfg.matrixUsername →
      lookupOr cfg.matrixToDiscord ev.RoomID ≠ "" → isReplace ev = false →
      sprint ev.Content.msgtype ∈
        (["m.text", "m.notice", "m.emote"] : List String) →
      wm.lookup (webhookKey (lookupOr cfg.matrixToDiscord ev.RoomID)
        ev.Sender) = some w →
      (handleMatrixEvent cfg startTime ext wm mm ev).2.1 =
        mm.Add { WebhookID := w.ID, WebhookToken := w.Token,
                 DiscordID := did, MatrixID := ev.ID,
                 RoomID := ev.RoomID }) ∧
    (dext.sendTextResult = none →
      (handleMessageCreate cfg botUserID dext wm mm dm).1 = mm) ∧
    (dm.Content = "" →
      (handleMessageCreate cfg botUserID dext wm mm dm).1 = mm) ∧
    (∀ eventID, dext.sendTextResult = some eventID → dm.Content ≠ "" →
      dm.AuthorID ≠ botUserID → webhooksHas wm dm.AuthorID = false →
      lookupOr cfg.bridge dm.ChannelID ≠ "" →
      (handleMessageCreate cfg botUserID dext wm mm dm).1 =
        mm.Add { DiscordID := dm.ID, MatrixID := eventID,
                 RoomID := lookupOr cfg.bridge dm.ChannelID }) := by
  refine ⟨?_, ?_, ?_, ?_, ?_, ?_⟩
  · intro hx
    rcases handleMatrixEvent_cases cfg startTime ext wm mm ev with h | ⟨calls, h⟩
    · rw [h]; exact matrixNewRelay_store_execNone ext wm mm ev _ hx
    · rw [h]
  · intro ht
    rcases handleMatrixEvent_cases cfg startTime ext wm mm ev with h | ⟨calls, h⟩
    · rw [h]; exact matrixNewRelay_store_notText ext wm mm ev _ ht
    · rw [h]
  · intro did w hx h1 h2 h3 h4 ht hw
    rw [handleMatrixEvent_newRelay cfg startTime ext wm mm ev h1 h2 h3 h4]
    rw [matrixNewRelay_text_success ext wm mm ev _ w did hw ht hx]
  · intro hsend
    simp only [handleMessageCreate, hsend]
    split
    · rfl
    · split
      · rfl
      · split
        · rename_i f heq
          split at heq <;> exact Option.noConfusion heq
        · rfl
  · intro hcontent
    simp only [handleMessageCreate, hcontent]
    split
    · rfl
    · split
      · rfl
      · simp
  · intro eventID hsend hcontent hbot hhas hroom
    have hnot : ¬ (dm.AuthorID = botUserID ∨
        webhooksHas wm dm.AuthorID = true) := by
      rintro (h | h)
      · exact hbot h
      · rw [hhas] at h; exact Bool.false_ne_true h
    simp only [handleMessageCreate]
    rw [if_neg hnot, if_neg hroom, if_pos hcontent, hsend]

/-- Witness for C4 amended: a concrete non-empty Discord text message
whose Matrix send succeeds records the (D5, E9) pair. -/
theorem C4_record_lifecycle_amended_witness :
    (handleMessageCreate ⟨"@bot:hs", [("C1", "!r:hs")], [("!r:hs", "C1")]⟩
      "B1" ⟨some "E9", "", fun s => s, fun s => s, fun _ => ""⟩
      [] MessageManager.empty
      { ID := "D5", ChannelID := "C1", AuthorID := "U7",
        AuthorUsername := "alice", Content := "hi",
        Attachments := [] }).1 =
      MessageManager.empty.Add { DiscordID := "D5", MatrixID := "E9",
                                 RoomID := lookupOr [("C1", "!r:hs")] "C1" } :=
  (C4_record_lifecycle_amended _ 0 ⟨.error "e", none, false, ""⟩ _ _ _ _
      ⟨"E0", "@alice:hs", "!r:hs", 5, {}⟩ _).2.2.2.2.2 "E9"
    rfl (by decide) (by decide) rfl (by decide)
